import Mathlib

/-!
Verification of the London tube journey planner (`src/app.py`).

The program is a single-page app: two text inputs, a Calculate button,
a geocoder client (Nominatim), a journey client (TfL), a duration
formatter, and an inline renderer.  We shallowly embed the pure logic:
HTTP services become an oracle (`World`), each calculation attempt
becomes the pure function `calculate` that returns the rendered
`Outcome` together with the list of HTTP `Call`s it issued.

Latitude/longitude values travel as the raw strings of the geocoder
response; the program converts them with Python `float` only to build
URLs and the map, which no claim inspects numerically, so the embedding
keeps the strings.  `str(requests.HTTPError)` is abstracted by the
status code it carries.
-/

/-- Lowercase a string character-wise; model of Python `str.lower()`
(the addresses involved are ASCII, where the two agree). -/
def strLower (s : String) : String :=
  String.mk (s.data.map Char.toLower)

/-- Contiguous-sublist test on lists; model of Python `needle in hay`
for strings, applied to their character lists. -/
def listSub (needle : List Char) : List Char → Bool
  | [] => decide (needle = [])
  | c :: rest =>
      needle.isPrefixOf (c :: rest) || listSub needle rest

/-- Python `"london" in address.lower()` (line 18 of `app.py`). -/
def containsLondon (address : String) : Bool :=
  listSub "london".data (strLower address).data

/-- The query string `geocode` sends to Nominatim (line 18):
`address if "london" in address.lower() else address + ", London, UK"`. -/
def geocodeQuery (address : String) : String :=
  if containsLondon address then address else address ++ ", London, UK"

/-- One candidate of the Nominatim response (`data[0]` fields used at
line 29); `lat`/`lon` are kept as the raw JSON strings. -/
structure Candidate where
  lat : String
  lon : String
  display_name : String
deriving DecidableEq, Repr

/-- The triple `(lat, lon, display_name)` returned by `geocode`. -/
structure Location where
  lat : String
  lon : String
  displayName : String
deriving DecidableEq, Repr

/-- An instruction object of a TfL journey leg: `summary` / `detailed`
fields, each possibly absent. -/
structure Instruction where
  summary : Option String
  detailed : Option String
deriving DecidableEq, Repr

/-- A leg `mode` object; the `name` field may be absent. -/
structure ModeObj where
  name : Option String
deriving DecidableEq, Repr

/-- One TfL journey leg: `mode` and `instruction` objects, each possibly
absent (the code reads them with `dict.get`). -/
structure Leg where
  mode : Option ModeObj
  instruction : Option Instruction
deriving DecidableEq, Repr

/-- One TfL journey: `duration` (minutes) and the ordered `legs`. -/
structure Journey where
  duration : Nat
  legs : List Leg
deriving DecidableEq, Repr

/-- The TfL response body: the `journeys` key may be absent. -/
structure TflResponse where
  journeys : Option (List Journey)
deriving DecidableEq, Repr

/-- Result of one HTTP request: a parsed 2xx body, or a non-2xx status
(which `raise_for_status` turns into `requests.HTTPError`). -/
inductive HttpResult (α : Type) where
  | ok (body : α)
  | httpError (status : Nat)
deriving DecidableEq, Repr

/-- The external services, as an oracle: the geocoder keyed by the query
string sent, the journey service keyed by the two coordinate pairs. -/
structure World where
  geo : String → HttpResult (List Candidate)
  tfl : String × String → String × String → HttpResult TflResponse

/-- One HTTP call issued during a calculation attempt. -/
inductive Call where
  | geo (query : String)
  | tfl (fromCoord toCoord : String × String)
deriving DecidableEq, Repr

/-- The exceptions the handler catches: `ValueError` (location not
found) and `requests.HTTPError` (abstracted by its status code). -/
inductive AppError where
  | valueError (msg : String)
  | httpError (status : Nat)
deriving DecidableEq, Repr

/-- The `ValueError` message of `geocode` (line 28), built from the
original input address, not the modified query. -/
def notFoundMsg (address : String) : String :=
  "Could not find location: \"" ++ address ++ "\". Try a more specific address."

/-- `geocode` (lines 17-29): sends one request with the qualified query,
surfaces non-2xx as `HTTPError`, an empty candidate list as
`ValueError`, else returns the first candidate's fields.
Returns the calls issued together with the result. -/
def geocode (w : World) (address : String) :
    List Call × Except AppError Location :=
  let query := geocodeQuery address
  ([Call.geo query],
    match w.geo query with
    | .httpError s => .error (.httpError s)
    | .ok [] => .error (.valueError (notFoundMsg address))
    | .ok (c :: _) => .ok ⟨c.lat, c.lon, c.display_name⟩)

/-- `get_tfl_journey` (lines 32-43): one request keyed by the two
coordinate pairs; non-2xx surfaces as `HTTPError`. -/
def get_tfl_journey (w : World) (fromCoord toCoord : String × String) :
    List Call × Except AppError TflResponse :=
  ([Call.tfl fromCoord toCoord],
    match w.tfl fromCoord toCoord with
    | .httpError s => .error (.httpError s)
    | .ok body => .ok body)

/-- `format_duration` (lines 46-50). -/
def format_duration (minutes : Nat) : String :=
  if minutes < 60 then
    toString minutes ++ " min"
  else if minutes % 60 = 0 then
    toString (minutes / 60) ++ "h"
  else
    toString (minutes / 60) ++ "h " ++ toString (minutes % 60) ++ "min"

/-- `MODE_COLOURS` (lines 53-61). -/
def MODE_COLOURS : List (String × String) :=
  [("tube", "#0019a8"), ("walking", "#6b7280"), ("bus", "#e53e3e"),
   ("national-rail", "#1e7e34"), ("overground", "#e87722"),
   ("elizabeth-line", "#6950a1"), ("dlr", "#009999")]

/-- `MODE_LABELS` (lines 63-71). -/
def MODE_LABELS : List (String × String) :=
  [("tube", "Tube"), ("walking", "Walk"), ("bus", "Bus"),
   ("national-rail", "Rail"), ("overground", "Overground"),
   ("elizabeth-line", "Elizabeth"), ("dlr", "DLR")]

/-- `MODE_LABELS.get(mode, mode)` (line 119/122). -/
def modeLabel (mode : String) : String :=
  (List.lookup mode MODE_LABELS).getD mode

/-- `MODE_COLOURS.get(mode, "#374151")` (line 121). -/
def modeColour (mode : String) : String :=
  (List.lookup mode MODE_COLOURS).getD "#374151"

/-- Python truthiness filter on an optional string: `None` and `""` are
falsy, any other string truthy. -/
def truthyStr : Option String → Option String
  | none => none
  | some s => if s = "" then none else some s

/-- `leg.get("mode", {}).get("name", "walking")` (line 115). -/
def modeNameOf (leg : Leg) : String :=
  match leg.mode with
  | none => "walking"
  | some m => m.name.getD "walking"

/-- The `or`-chain of line 116-120:
`instruction.get("summary") or instruction.get("detailed") or
MODE_LABELS.get(mode, mode)` with Python truthiness. -/
def pickInstruction (summary detailed : Option String) (mode : String) :
    String :=
  match truthyStr summary with
  | some s => s
  | none =>
      match truthyStr detailed with
      | some d => d
      | none => modeLabel mode

/-- One rendered step line: badge label, badge colour, instruction
text (lines 114-128). -/
structure Step where
  label : String
  colour : String
  text : String
deriving DecidableEq, Repr

/-- Rendering of one leg (the body of the `for leg` loop). -/
def renderLeg (leg : Leg) : Step :=
  let mode := modeNameOf leg
  let ins := leg.instruction.getD ⟨none, none⟩
  ⟨modeLabel mode, modeColour mode, pickInstruction ins.summary ins.detailed mode⟩

/-- The map rendered for a successful journey (lines 133-160): markers
at the two geocoded coordinate pairs, a dashed line between them,
bounds fitted to both.  Coordinates stay as the geocoder strings. -/
structure MapView where
  markerA : String × String
  markerB : String × String
  lineFrom : String × String
  lineTo : String × String
deriving DecidableEq, Repr

/-- Everything rendered for a successful journey (lines 106-163). -/
structure RenderedView where
  durationText : String
  fromShown : String
  toShown : String
  steps : List Step
  mapView : MapView
deriving DecidableEq, Repr

/-- The result panel of one calculation attempt. -/
inductive Outcome where
  | warning (msg : String)
  | errorMsg (msg : String)
  | rendered (view : RenderedView)
deriving DecidableEq, Repr

/-- `result_area.warning` text of line 87. -/
def inputWarningMsg : String := "Please enter both locations."

/-- `result_area.error` text of lines 97-100 (the two adjacent string
literals of the source concatenate). -/
def noJourneyMsg : String :=
  "No tube journey found. Locations may be outside the TfL network or too close together."

/-- `f"API error: {e}"` of line 168; `str(e)` is abstracted by the
status code the `HTTPError` carries. -/
def apiErrorMsg (status : Nat) : String :=
  "API error: " ++ toString status

/-- The `except` clauses of lines 165-168: `ValueError` renders its own
message, `HTTPError` the API-error message.  (The generic
`except Exception` of line 169 has no source in the embedded logic.) -/
def renderError : AppError → Outcome
  | .valueError msg => .errorMsg msg
  | .httpError s => .errorMsg (apiErrorMsg s)

/-- The view built for the first journey (lines 102-163). -/
def renderJourney (fromInput toInput : String)
    (locFrom locTo : Location) (j : Journey) : RenderedView :=
  ⟨format_duration j.duration, fromInput, toInput,
   j.legs.map renderLeg,
   ⟨(locFrom.lat, locFrom.lon), (locTo.lat, locTo.lon),
    (locFrom.lat, locFrom.lon), (locTo.lat, locTo.lon)⟩⟩

/-- One calculation attempt (lines 85-170): validate the inputs, geocode
both, fetch the TfL journey, render the first journey or an inline
error.  Returns the outcome and the HTTP calls issued, in order. -/
def calculate (w : World) (fromInput toInput : String) :
    Outcome × List Call :=
  if fromInput.isEmpty || toInput.isEmpty then
    (.warning inputWarningMsg, [])
  else
    let r1 := geocode w fromInput
    match r1.2 with
    | .error e => (renderError e, r1.1)
    | .ok locFrom =>
        let r2 := geocode w toInput
        match r2.2 with
        | .error e => (renderError e, r1.1 ++ r2.1)
        | .ok locTo =>
            let r3 := get_tfl_journey w
              (locFrom.lat, locFrom.lon) (locTo.lat, locTo.lon)
            let calls := r1.1 ++ r2.1 ++ r3.1
            match r3.2 with
            | .error e => (renderError e, calls)
            | .ok data =>
                match data.journeys.getD [] with
                | [] => (.errorMsg noJourneyMsg, calls)
                | j :: _ =>
                    (.rendered (renderJourney fromInput toInput locFrom locTo j),
                     calls)

/-! ## Shared concrete inputs for witnesses -/

/-- A world whose geocoder always answers with an empty candidate list. -/
def wNoCandidates : World :=
  ⟨fun _ => .ok [], fun _ _ => .ok ⟨some []⟩⟩

/-- A concrete geocoder candidate. -/
def cBaker : Candidate := ⟨"51.5226", "-0.1571", "Baker Street, London"⟩

/-- A second concrete geocoder candidate. -/
def cWharf : Candidate := ⟨"51.5054", "-0.0235", "Canary Wharf, London"⟩

/-! ## C1: duration formatting -/

/-- Claim C1: for every non-negative number of minutes, `format_duration`
returns `"<H>h <M>min"` when the input is at least 60 (omitting the
minutes component when the remainder is zero) and `"<M> min"` otherwise;
in particular 0 ↦ "0 min", 59 ↦ "59 min", 60 ↦ "1h", 90 ↦ "1h 30min",
125 ↦ "2h 5min". -/
theorem format_duration_spec (n : Nat) :
    (n < 60 → format_duration n = toString n ++ " min") ∧
    (60 ≤ n → n % 60 = 0 → format_duration n = toString (n / 60) ++ "h") ∧
    (60 ≤ n → n % 60 ≠ 0 →
      format_duration n =
        toString (n / 60) ++ "h " ++ toString (n % 60) ++ "min") ∧
    format_duration 0 = "0 min" ∧ format_duration 59 = "59 min" ∧
    format_duration 60 = "1h" ∧ format_duration 90 = "1h 30min" ∧
    format_duration 125 = "2h 5min" := by
  refine ⟨?_, ?_, ?_, rfl, rfl, rfl, rfl, rfl⟩
  · intro h
    simp [format_duration, h]
  · intro h1 h2
    rw [format_duration, if_neg (by omega), if_pos h2]
  · intro h1 h2
    rw [format_duration, if_neg (by omega), if_neg h2]

/-- Witness for C1 at concrete minute counts. -/
theorem format_duration_spec_witness :
    format_duration 45 = toString 45 ++ " min" ∧
    format_duration 120 = toString (120 / 60) ++ "h" ∧
    format_duration 125 =
      toString (125 / 60) ++ "h " ++ toString (125 % 60) ++ "min" :=
  ⟨(format_duration_spec 45).1 (by decide),
   (format_duration_spec 120).2.1 (by decide) (by decide),
   (format_duration_spec 125).2.2.1 (by decide) (by decide)⟩

/-! ## C2: geocoder query qualification -/

/-- Claim C2: for every address not containing "london"
(case-insensitive) the query `geocode` sends is the address with
", London, UK" appended; for every address already containing it the
query is the address unchanged; and the single call `geocode` issues
carries exactly that query. -/
theorem geocode_query_spec (w : World) (a : String) :
    (containsLondon a = false → geocodeQuery a = a ++ ", London, UK") ∧
    (containsLondon a = true → geocodeQuery a = a) ∧
    (geocode w a).1 = [Call.geo (geocodeQuery a)] := by
  refine ⟨?_, ?_, rfl⟩ <;> intro h <;> simp [geocodeQuery, h]

/-- Witness for C2: one address without "london", one with it. -/
theorem geocode_query_spec_witness :
    geocodeQuery "Baker Street" = "Baker Street" ++ ", London, UK" ∧
    geocodeQuery "London Bridge" = "London Bridge" :=
  ⟨(geocode_query_spec wNoCandidates "Baker Street").1 (by decide),
   (geocode_query_spec wNoCandidates "London Bridge").2.1 (by decide)⟩

/-! ## C3: empty geocoder response -/

/-- Claim C3: for every address, when the geocoding service responds
with an empty candidate list, `geocode` fails with the
location-not-found `ValueError` whose message is built from the original
input address (not the modified query), and returns no `Location`. -/
theorem geocode_not_found (w : World) (a : String)
    (h : w.geo (geocodeQuery a) = .ok []) :
    (geocode w a).2 = .error (.valueError (notFoundMsg a)) ∧
    notFoundMsg a =
      "Could not find location: \"" ++ a ++ "\". Try a more specific address." ∧
    ∀ loc : Location, (geocode w a).2 ≠ .ok loc := by
  refine ⟨by simp [geocode, h], rfl, ?_⟩
  intro loc
  simp [geocode, h]

/-- Witness for C3 with a concrete empty-response world. -/
theorem geocode_not_found_witness :
    (geocode wNoCandidates "Camden Town").2 =
      .error (.valueError (notFoundMsg "Camden Town")) :=
  (geocode_not_found wNoCandidates "Camden Town" rfl).1

/-! ## C7: missing input -/

/-- Claim C7: whenever at least one of the two input fields is empty,
the attempt shows the "please enter both locations" warning and issues
zero HTTP calls. -/
theorem missing_input_no_calls (w : World) (f t : String)
    (h : f = "" ∨ t = "") :
    calculate w f t = (.warning inputWarningMsg, []) := by
  have hb : (f.isEmpty || t.isEmpty) = true := by
    rcases h with h | h <;> subst h <;>
      simp [show ("" : String).isEmpty = true from rfl]
  simp [calculate, hb]

/-- Witness for C7 at a concrete world and inputs. -/
theorem missing_input_no_calls_witness :
    calculate wNoCandidates "" "Canary Wharf" = (.warning inputWarningMsg, []) :=
  missing_input_no_calls wNoCandidates "" "Canary Wharf" (Or.inl rfl)

/-! ## C8: transport errors stay inline -/

/-- Claim C8: a non-2xx status from either service makes the attempt
fail with the HTTP transport error carrying that status; the handler
catches it and renders the inline "API error" message, so the single
attempt always produces an `Outcome` (nothing propagates further). -/
theorem transport_error_inline (w : World) (f t : String) (s : Nat)
    (hf : f.isEmpty = false) (ht : t.isEmpty = false) :
    (w.geo (geocodeQuery f) = .httpError s →
      calculate w f t =
        (.errorMsg (apiErrorMsg s), [.geo (geocodeQuery f)])) ∧
    (∀ c l, w.geo (geocodeQuery f) = .ok (c :: l) →
      w.geo (geocodeQuery t) = .httpError s →
      calculate w f t =
        (.errorMsg (apiErrorMsg s),
         [.geo (geocodeQuery f), .geo (geocodeQuery t)])) ∧
    (∀ c1 l1 c2 l2, w.geo (geocodeQuery f) = .ok (c1 :: l1) →
      w.geo (geocodeQuery t) = .ok (c2 :: l2) →
      w.tfl (c1.lat, c1.lon) (c2.lat, c2.lon) = .httpError s →
      (calculate w f t).1 = .errorMsg (apiErrorMsg s)) := by
  refine ⟨?_, ?_, ?_⟩
  · intro h1
    simp [calculate, geocode, renderError, hf, ht, h1]
  · intro c l h1 h2
    simp [calculate, geocode, renderError, hf, ht, h1, h2]
  · intro c1 l1 c2 l2 h1 h2 h3
    simp [calculate, geocode, get_tfl_journey, renderError, hf, ht, h1, h2, h3]

/-- A world whose geocoder always fails with HTTP status 503. -/
def wGeoDown : World :=
  ⟨fun _ => .httpError 503, fun _ _ => .ok ⟨none⟩⟩

/-- Witness for C8: a 503 from the geocoder renders the inline message. -/
theorem transport_error_inline_witness :
    calculate wGeoDown "Baker Street" "Canary Wharf" =
      (.errorMsg (apiErrorMsg 503), [.geo (geocodeQuery "Baker Street")]) :=
  (transport_error_inline wGeoDown "Baker Street" "Canary Wharf" 503
    rfl rfl).1 rfl

/-! ## C5: the first journey is the one rendered -/

/-- Claim C5: when the journey response has a non-empty `journeys` list,
the view rendered comes exactly from the first entry, whatever the rest
of the list is: its duration text is that entry's formatted duration and
its steps are that entry's legs rendered in order. -/
theorem first_journey_selected (w : World) (f t : String)
    (c1 c2 : Candidate) (l1 l2 : List Candidate) (resp : TflResponse)
    (j : Journey) (rest : List Journey)
    (hf : f.isEmpty = false) (ht : t.isEmpty = false)
    (h1 : w.geo (geocodeQuery f) = .ok (c1 :: l1))
    (h2 : w.geo (geocodeQuery t) = .ok (c2 :: l2))
    (h3 : w.tfl (c1.lat, c1.lon) (c2.lat, c2.lon) = .ok resp)
    (h4 : resp.journeys = some (j :: rest)) :
    (calculate w f t).1 =
      .rendered (renderJourney f t ⟨c1.lat, c1.lon, c1.display_name⟩
        ⟨c2.lat, c2.lon, c2.display_name⟩ j) ∧
    (renderJourney f t ⟨c1.lat, c1.lon, c1.display_name⟩
        ⟨c2.lat, c2.lon, c2.display_name⟩ j).durationText =
      format_duration j.duration ∧
    (renderJourney f t ⟨c1.lat, c1.lon, c1.display_name⟩
        ⟨c2.lat, c2.lon, c2.display_name⟩ j).steps =
      j.legs.map renderLeg := by
  refine ⟨?_, rfl, rfl⟩
  simp [calculate, geocode, get_tfl_journey, hf, ht, h1, h2, h3, h4]

/-- A walking leg with a summary instruction. -/
def legWalk : Leg :=
  ⟨some ⟨some "walking"⟩, some ⟨some "Walk to Baker Street Station", none⟩⟩

/-- A tube leg with a summary instruction. -/
def legTube : Leg :=
  ⟨some ⟨some "tube"⟩, some ⟨some "Jubilee line to Canary Wharf", none⟩⟩

/-- A concrete 45-minute journey with two legs. -/
def jWalkTube : Journey := ⟨45, [legWalk, legTube]⟩

/-- A journey response holding exactly one journey. -/
def respOne : TflResponse := ⟨some [jWalkTube]⟩

/-- A world where both geocodes and the journey lookup succeed. -/
def wHappy : World :=
  ⟨fun q => if q = geocodeQuery "Baker Street" then .ok [cBaker] else .ok [cWharf],
   fun _ _ => .ok respOne⟩

/-- Witness for C5 on the happy-path world. -/
theorem first_journey_selected_witness :
    (calculate wHappy "Baker Street" "Canary Wharf").1 =
      .rendered (renderJourney "Baker Street" "Canary Wharf"
        ⟨cBaker.lat, cBaker.lon, cBaker.display_name⟩
        ⟨cWharf.lat, cWharf.lon, cWharf.display_name⟩ jWalkTube) :=
  (first_journey_selected wHappy "Baker Street" "Canary Wharf"
    cBaker cWharf [] [] respOne jWalkTube []
    rfl rfl (by decide) (by decide) rfl rfl).1

/-! ## C4: empty journey list -/

/-- Claim C4: when the journey response's `journeys` list is empty or
absent, the attempt reports the no-journey error message and renders
nothing; conversely a rendered view (hence a constructed Journey, its
step list and its map) only arises when the response holds at least one
journey entry, and then it is built from the first one. -/
theorem no_journey_reported (w : World) (f t : String) :
    (∀ c1 l1 c2 l2 resp, f.isEmpty = false → t.isEmpty = false →
      w.geo (geocodeQuery f) = .ok (c1 :: l1) →
      w.geo (geocodeQuery t) = .ok (c2 :: l2) →
      w.tfl (c1.lat, c1.lon) (c2.lat, c2.lon) = .ok resp →
      (resp.journeys = none ∨ resp.journeys = some []) →
      (calculate w f t).1 = .errorMsg noJourneyMsg) ∧
    (∀ v, (calculate w f t).1 = .rendered v →
      ∃ c1 l1 c2 l2 resp j rest,
        w.geo (geocodeQuery f) = .ok (c1 :: l1) ∧
        w.geo (geocodeQuery t) = .ok (c2 :: l2) ∧
        w.tfl (c1.lat, c1.lon) (c2.lat, c2.lon) = .ok resp ∧
        resp.journeys = some (j :: rest) ∧
        v = renderJourney f t ⟨c1.lat, c1.lon, c1.display_name⟩
              ⟨c2.lat, c2.lon, c2.display_name⟩ j) := by
  constructor
  · intro c1 l1 c2 l2 resp hf ht h1 h2 h3 hj
    rcases hj with hj | hj <;>
      simp [calculate, geocode, get_tfl_journey, hf, ht, h1, h2, h3, hj]
  · intro v hv
    by_cases hf : f.isEmpty = true
    · simp [calculate, hf] at hv
    · by_cases ht : t.isEmpty = true
      · simp [calculate, ht] at hv
      · have hf2 : f.isEmpty = false := by simpa using hf
        have ht2 : t.isEmpty = false := by simpa using ht
        simp only [calculate, geocode, get_tfl_journey, hf2, ht2] at hv
        simp at hv
        cases hg1 : w.geo (geocodeQuery f) with
        | httpError s => rw [hg1] at hv; simp [renderError] at hv
        | ok body1 =>
          cases body1 with
          | nil => rw [hg1] at hv; simp [renderError] at hv
          | cons c1 l1 =>
            rw [hg1] at hv
            simp at hv
            cases hg2 : w.geo (geocodeQuery t) with
            | httpError s => rw [hg2] at hv; simp [renderError] at hv
            | ok body2 =>
              cases body2 with
              | nil => rw [hg2] at hv; simp [renderError] at hv
              | cons c2 l2 =>
                rw [hg2] at hv
                simp at hv
                cases hg3 : w.tfl (c1.lat, c1.lon) (c2.lat, c2.lon) with
                | httpError s => rw [hg3] at hv; simp [renderError] at hv
                | ok resp =>
                  rw [hg3] at hv
                  simp at hv
                  cases hjs : resp.journeys.getD [] with
                  | nil => rw [hjs] at hv; simp at hv
                  | cons j rest =>
                    rw [hjs] at hv
                    simp at hv
                    cases ho : resp.journeys with
                    | none => rw [ho] at hjs; simp at hjs
                    | some l =>
                      rw [ho] at hjs
                      simp at hjs
                      subst hjs
                      exact ⟨c1, l1, c2, l2, resp, j, rest,
                        rfl, rfl, hg3, ho, hv.symm⟩

/-- A world whose journey service answers with an empty journey list. -/
def wNoJourneys : World :=
  ⟨fun _ => .ok [cBaker], fun _ _ => .ok ⟨some []⟩⟩

/-- Witness for C4: empty journey list yields the no-journey message. -/
theorem no_journey_reported_witness :
    (calculate wNoJourneys "Baker Street" "Canary Wharf").1 =
      .errorMsg noJourneyMsg :=
  (no_journey_reported wNoJourneys "Baker Street" "Canary Wharf").1
    cBaker [] cBaker [] ⟨some []⟩ rfl rfl rfl rfl rfl (Or.inr rfl)

/-! ## C6: instruction preference and leg order -/

/-- Claim C6: for every leg (whose instruction fields, when present, are
non-empty — the empty-string case is claim C10), the text shown is the
instruction summary when present, else the detailed instruction when
present, else the label derived from the mode; the label of an
unrecognized mode is the raw mode name; and legs render in response
order. -/
theorem instruction_preference :
    (∀ leg : Leg,
      (leg.instruction.getD ⟨none, none⟩).summary ≠ some "" →
      (leg.instruction.getD ⟨none, none⟩).detailed ≠ some "" →
      ((∀ s, (leg.instruction.getD ⟨none, none⟩).summary = some s →
          (renderLeg leg).text = s) ∧
       ((leg.instruction.getD ⟨none, none⟩).summary = none →
        ∀ d, (leg.instruction.getD ⟨none, none⟩).detailed = some d →
          (renderLeg leg).text = d) ∧
       ((leg.instruction.getD ⟨none, none⟩).summary = none →
        (leg.instruction.getD ⟨none, none⟩).detailed = none →
          (renderLeg leg).text = modeLabel (modeNameOf leg)))) ∧
    (∀ m, List.lookup m MODE_LABELS = none → modeLabel m = m) ∧
    (∀ (fi ti : String) (lf lt : Location) (j : Journey),
      (renderJourney fi ti lf lt j).steps = j.legs.map renderLeg) := by
  refine ⟨?_, ?_, fun _ _ _ _ _ => rfl⟩
  · intro leg h1 h2
    refine ⟨?_, ?_, ?_⟩
    · intro s hs
      have hs2 : s ≠ "" := by
        intro hcon
        rw [hcon] at hs
        exact h1 hs
      simp [renderLeg, pickInstruction, truthyStr, hs, hs2]
    · intro hnone d hd
      have hd2 : d ≠ "" := by
        intro hcon
        rw [hcon] at hd
        exact h2 hd
      simp [renderLeg, pickInstruction, truthyStr, hnone, hd, hd2]
    · intro hs hd
      simp [renderLeg, pickInstruction, truthyStr, hs, hd]
  · intro m h
    simp [modeLabel, h]

/-- Witness for C6 at concrete legs. -/
theorem instruction_preference_witness :
    (renderLeg legTube).text = "Jubilee line to Canary Wharf" ∧
    (renderLeg ⟨some ⟨some "tube"⟩, some ⟨none, some "Go east"⟩⟩).text =
      "Go east" ∧
    (renderLeg ⟨some ⟨some "hovercraft"⟩, none⟩).text =
      modeLabel (modeNameOf ⟨some ⟨some "hovercraft"⟩, none⟩) :=
  ⟨(instruction_preference.1 legTube (by decide) (by decide)).1 _ rfl,
   (instruction_preference.1 ⟨some ⟨some "tube"⟩, some ⟨none, some "Go east"⟩⟩
      (by decide) (by decide)).2.1 rfl _ rfl,
   (instruction_preference.1 ⟨some ⟨some "hovercraft"⟩, none⟩
      (by decide) (by decide)).2.2 rfl rfl⟩

/-! ## C9: missing mode defaults to walking -/

/-- Claim C9: a leg whose mode object is absent, or whose mode object
lacks a name, renders as walking: the Walk badge with the walking
colour, and the walking fallback label when no instruction text is
available. -/
theorem missing_mode_walking (leg : Leg)
    (h : leg.mode = none ∨ leg.mode = some ⟨none⟩) :
    modeNameOf leg = "walking" ∧
    (renderLeg leg).label = "Walk" ∧
    (renderLeg leg).colour = "#6b7280" ∧
    (truthyStr (leg.instruction.getD ⟨none, none⟩).summary = none →
     truthyStr (leg.instruction.getD ⟨none, none⟩).detailed = none →
     (renderLeg leg).text = "Walk") := by
  have hm : modeNameOf leg = "walking" := by
    rcases h with h | h <;> simp [modeNameOf, h]
  refine ⟨hm, ?_, ?_, ?_⟩
  · simp [renderLeg, hm]
    decide
  · simp [renderLeg, hm]
    decide
  · intro hs hd
    simp [renderLeg, pickInstruction, hm, hs, hd]
    decide

/-- Witness for C9 at a leg with no mode object and no instruction. -/
theorem missing_mode_walking_witness :
    modeNameOf ⟨none, none⟩ = "walking" ∧
    (renderLeg (⟨none, none⟩ : Leg)).text = "Walk" :=
  ⟨(missing_mode_walking ⟨none, none⟩ (Or.inl rfl)).1,
   (missing_mode_walking ⟨none, none⟩ (Or.inl rfl)).2.2.2 rfl rfl⟩

/-! ## C10: empty instruction strings are treated as absent -/

/-- First non-empty string of a list, with a default: the spec-side
reading of the instruction fallback chain in claim C10. -/
def firstNonEmptyD : List String → String → String
  | [], dflt => dflt
  | x :: xs, dflt => if x = "" then firstNonEmptyD xs dflt else x

/-- Claim C10: an instruction summary or detailed field that is present
but empty behaves exactly like an absent one, and the displayed text is
the first non-empty string among summary, detailed and the mode-derived
label (with the empty string shown only when all three are empty). -/
theorem empty_instruction_as_absent :
    ∀ (s d : Option String) (m : String),
      pickInstruction (some "") d m = pickInstruction none d m ∧
      pickInstruction s (some "") m = pickInstruction s none m ∧
      pickInstruction s d m =
        firstNonEmptyD [s.getD "", d.getD "", modeLabel m] "" ∧
      ∀ leg : Leg, (renderLeg leg).text =
        pickInstruction (leg.instruction.getD ⟨none, none⟩).summary
          (leg.instruction.getD ⟨none, none⟩).detailed (modeNameOf leg) := by
  intro s d m
  refine ⟨by simp [pickInstruction, truthyStr], ?_, ?_, fun _ => rfl⟩
  · rcases s with _ | sv
    · simp [pickInstruction, truthyStr]
    · by_cases hs : sv = "" <;> simp [pickInstruction, truthyStr, hs]
  · rcases s with _ | sv <;> rcases d with _ | dv
    · by_cases hl : modeLabel m = "" <;>
        simp [pickInstruction, truthyStr, firstNonEmptyD, hl]
    · by_cases hd : dv = "" <;> by_cases hl : modeLabel m = "" <;>
        simp [pickInstruction, truthyStr, firstNonEmptyD, hd, hl]
    · by_cases hs : sv = "" <;> by_cases hl : modeLabel m = "" <;>
        simp [pickInstruction, truthyStr, firstNonEmptyD, hs, hl]
    · by_cases hs : sv = "" <;> by_cases hd : dv = "" <;>
        by_cases hl : modeLabel m = "" <;>
        simp [pickInstruction, truthyStr, firstNonEmptyD, hs, hd, hl]
